import Mathlib

/-!
Shallow embedding of the three-service pipeline (api-gateway, media-processor,
text-to-speech) from `src/`.  Filenames, paths and texts are modelled as
`List Char`; byte contents are abstracted to their length where only the size
matters.  External effects (the downstream HTTP call, the two synthesis
engines, ffmpeg, whisper, the filesystem) are passed in as explicit oracle
parameters, and each handler returns a result record describing the HTTP
status produced, the calls it issued and the temp-directory contents after it
finished.  A FastAPI `HTTPException` raised inside a handler's `try` block is
an `Exception`, so it is caught by the handler's own `except Exception`
clause and re-raised as a 500; the embeddings reproduce that control flow.
-/

namespace MusicPipeline

/-- The fixed upload ceiling used by both upload paths: 150 MiB. -/
def sizeLimit : Nat := 150 * 1024 * 1024

/-- The shared directory `TEMP_FILES_DIR = "/app/temp_files"`, shared mount of all three services. -/
def tempFilesDir : List Char := "/app/temp_files".data

/-- Model of `os.path.join(a, b)` for the shapes used here: an absolute `b` replaces
`a`, otherwise the parts are joined with a single separator. -/
def osPathJoin (a b : List Char) : List Char :=
  match b with
  | '/' :: _ => b
  | _ => a ++ '/' :: b

/-- Python truthiness of an optional string: `None` and `""` are falsy. -/
def pyFalsy : Option (List Char) → Bool
  | none => true
  | some [] => true
  | some (_ :: _) => false

/-- A very small filesystem model: the list of paths present in the shared
temp directory.  `os.open(..., "wb")` creates the path if absent. -/
def fsWrite (p : List Char) (fs : List (List Char)) : List (List Char) :=
  if p ∈ fs then fs else fs ++ [p]

/-- Model of `os.remove` preceded by an `os.path.exists` guard. -/
def fsRemove (p : List Char) (fs : List (List Char)) : List (List Char) :=
  fs.filter (fun q => q ≠ p)

/-- Outcome of one `httpx` POST as seen by the gateway: the call either
returns a response with some status code, or raises (timeout, refused
connection, ...) with some message. -/
inductive HttpOutcome where
  | response (statusCode : Nat)
  | raised (msg : List Char)
deriving DecidableEq, Repr

/-! ### Gateway: `POST /api/v1/media-to-text` (src/api-gateway/main.py) -/

/-- What one execution of the gateway media-intake handler did. -/
structure MediaGatewayResult where
  statusCode : Nat
  sizeRejected : Bool
  downstreamCalled : Bool
  fsAfter : List (List Char)
deriving DecidableEq, Repr

/-- The temp path the gateway writes the upload to:
`os.path.join(TEMP_FILES_DIR, f"{job_id}_{filename}")`. -/
def gatewayTempPath (jobId filename : List Char) : List Char :=
  osPathJoin tempFilesDir (jobId ++ '_' :: filename)

/-- Model of `filename = file.filename or f"audio_{job_id[:8]}.mp3"`. -/
def gatewayMediaFilename (jobId : List Char) (orig : Option (List Char)) : List Char :=
  if pyFalsy orig then ("audio_".data ++ jobId.take 8 ++ ".mp3".data)
  else orig.getD []

/-- Model of `media_to_text`: size check, temp write, downstream POST, conditional
cleanup, status check.  The 413 raised on oversize is caught by the
handler's own `except Exception` and re-raised as a 500, and so is the
`HTTPException` re-raising a non-200 downstream status. -/
def media_to_text (jobId : List Char) (orig : Option (List Char)) (fileSize : Nat)
    (downstream : HttpOutcome) (fs0 : List (List Char)) : MediaGatewayResult :=
  if sizeLimit < fileSize then
    { statusCode := 500, sizeRejected := true, downstreamCalled := false, fsAfter := fs0 }
  else
    let filename := gatewayMediaFilename jobId orig
    let tempPath := gatewayTempPath jobId filename
    let fs1 := fsWrite tempPath fs0
    match downstream with
    | .raised _ =>
        -- the exception propagates to `except Exception`; no cleanup runs
        { statusCode := 500, sizeRejected := false, downstreamCalled := true, fsAfter := fs1 }
    | .response code =>
        let fs2 := fsRemove tempPath fs1
        if code ≠ 200 then
          { statusCode := 500, sizeRejected := false, downstreamCalled := true, fsAfter := fs2 }
        else
          { statusCode := 200, sizeRejected := false, downstreamCalled := true, fsAfter := fs2 }

/-! ### Gateway: `POST /api/v1/text-to-audio` (src/api-gateway/main.py) -/

/-- The alphabet `string.ascii_lowercase`. -/
def asciiLowercase : List Char := "abcdefghijklmnopqrstuvwxyz".data

/-- Model of the join of `random.choices(string.ascii_lowercase, k)`: the random source
is modelled as a function giving, for each position, the index drawn from
the 26-letter alphabet. -/
def randomChoicesLowercase (randSrc : Nat → Fin 26) (k : Nat) : List Char :=
  (List.range k).map (fun i => asciiLowercase.get ⟨(randSrc i).val,
    lt_of_lt_of_le (randSrc i).isLt (by decide)⟩)

/-- Python `s.endswith(suffix)` on our char lists. -/
def pyEndsWith (s suffix : List Char) : Bool :=
  suffix.isSuffixOf s

/-- The `".mp3"` literal used by the gateway filename policy, the
synthesizer filename normalization and `filename.replace(".mp3", ".wav")`. -/
def mp3Ext : List Char := ".mp3".data

/-- The `".wav"` literal: the fallback engine's output extension. -/
def wavExt : List Char := ".wav".data

/-- The gateway text-intake filename policy: a fresh random 10-letter name
with `.mp3` when no (truthy) filename was supplied, otherwise the supplied
name, with `.mp3` appended unless it already ends in `.mp3`. -/
def gatewayTextFilename (randSrc : Nat → Fin 26) (orig : Option (List Char)) : List Char :=
  if pyFalsy orig then randomChoicesLowercase randSrc 10 ++ mp3Ext
  else
    let f := orig.getD []
    if pyEndsWith f mp3Ext then f else f ++ mp3Ext

/-- What one execution of the gateway text-intake handler did. -/
structure TextGatewayResult where
  statusCode : Nat
  downstreamCalled : Bool
  filename : List Char
deriving DecidableEq, Repr

/-- Model of `text_to_audio`: voice-type check, filename policy, downstream POST,
status check.  As in the media handler, every `HTTPException` raised inside
the `try` (the 400 for a bad voice type, the re-raise of a non-200
downstream status) is converted to a 500 by the blanket `except Exception`.
The success response carries the gateway-side `filename`. -/
def text_to_audio (voiceType : List Char) (orig : Option (List Char))
    (randSrc : Nat → Fin 26) (downstream : HttpOutcome) : TextGatewayResult :=
  if voiceType ≠ "male".data ∧ voiceType ≠ "female".data then
    { statusCode := 500, downstreamCalled := false, filename := [] }
  else
    let filename := gatewayTextFilename randSrc orig
    match downstream with
    | .raised _ =>
        { statusCode := 500, downstreamCalled := true, filename := filename }
    | .response code =>
        if code ≠ 200 then
          { statusCode := 500, downstreamCalled := true, filename := filename }
        else
          { statusCode := 200, downstreamCalled := true, filename := filename }

/-! ### Media processor: `POST /process-media` (src/media-processor/main.py) -/

/-- Model of `filename.lower()`, character-wise. -/
def pyLower (l : List Char) : List Char := l.map Char.toLower

/-- The last piece of `s.split('.')`: scanning left to right, restart the
current piece at each `'.'`. -/
def lastDotSegment (l : List Char) : List Char :=
  l.foldl (fun acc c => if c = '.' then [] else acc ++ [c]) []

/-- Model of `filename.lower().split('.')[-1] if '.' in filename else ''`. -/
def fileExtension (filename : List Char) : List Char :=
  if '.' ∈ filename then lastDotSegment (pyLower filename) else []

/-- The fixed set of video extensions the processor transcodes. -/
def videoExtensions : List (List Char) :=
  ["mp4".data, "avi".data, "mov".data, "mkv".data, "flv".data, "wmv".data, "webm".data]

/-- Which path the processor hands to `model.transcribe`. -/
inductive TranscribeSrc where
  | original
  | transcodedAudio
deriving DecidableEq, Repr

/-- External invocations the processor performs, in order: the ffmpeg
transcode call and the whisper transcription call. -/
inductive ProcEvent where
  | transcodeCall
  | transcribeCall (src : TranscribeSrc)
deriving DecidableEq, Repr

/-- What one execution of `/process-media` did. -/
structure ProcResult where
  statusCode : Nat
  sizeRejected : Bool
  events : List ProcEvent
  fsAfter : List (List Char)
deriving DecidableEq, Repr

/-- The path `os.path.join(TEMP_FILES_DIR, f"{job_id}_{filename}")`. -/
def procInputPath (jobId filename : List Char) : List Char :=
  osPathJoin tempFilesDir (jobId ++ '_' :: filename)

/-- The path `os.path.join(TEMP_FILES_DIR, f"{job_id}_audio.mp3")`. -/
def procAudioPath (jobId : List Char) : List Char :=
  osPathJoin tempFilesDir (jobId ++ "_audio.mp3".data)

/-- The `finally` block of `process_media`: remove the saved upload and the
transcoded intermediate, each only if its variable was assigned and the
path exists. -/
def procFinalize (jobId filename : List Char) (inputAssigned audioAssigned : Bool)
    (fs : List (List Char)) : List (List Char) :=
  let fs1 := if inputAssigned then fsRemove (procInputPath jobId filename) fs else fs
  if audioAssigned then fsRemove (procAudioPath jobId) fs1 else fs1

/-- Model of `process_media`: size check, temp write, extension classification,
conditional ffmpeg transcode, whisper transcription, with the `finally`
cleanup on every exit path.  `convertOk` is ffmpeg's exit status,
`ffmpegWroteOutput` says whether a failing ffmpeg run still created its
output file, `transcribeOk` says whether `model.transcribe` raised.
Oversize uploads raise a 413 that the handler's own `except Exception`
converts to a 500, as in the gateway. -/
def process_media (jobId filename : List Char) (fileSize : Nat)
    (convertOk ffmpegWroteOutput transcribeOk : Bool)
    (fs0 : List (List Char)) : ProcResult :=
  if sizeLimit < fileSize then
    { statusCode := 500, sizeRejected := true, events := [],
      fsAfter := procFinalize jobId filename false false fs0 }
  else
    let fs1 := fsWrite (procInputPath jobId filename) fs0
    if fileExtension filename ∈ videoExtensions then
      if convertOk then
        let fs2 := fsWrite (procAudioPath jobId) fs1
        if transcribeOk then
          { statusCode := 200, sizeRejected := false,
            events := [.transcodeCall, .transcribeCall .transcodedAudio],
            fsAfter := procFinalize jobId filename true true fs2 }
        else
          { statusCode := 500, sizeRejected := false,
            events := [.transcodeCall, .transcribeCall .transcodedAudio],
            fsAfter := procFinalize jobId filename true true fs2 }
      else
        let fs2 := if ffmpegWroteOutput then fsWrite (procAudioPath jobId) fs1 else fs1
        { statusCode := 500, sizeRejected := false, events := [.transcodeCall],
          fsAfter := procFinalize jobId filename true true fs2 }
    else
      if transcribeOk then
        { statusCode := 200, sizeRejected := false,
          events := [.transcribeCall .original],
          fsAfter := procFinalize jobId filename true false fs1 }
      else
        { statusCode := 500, sizeRejected := false,
          events := [.transcribeCall .original],
          fsAfter := procFinalize jobId filename true false fs1 }

/-! ### Text-to-speech: `POST /generate-speech` (src/text-to-speech/main.py) -/

/-- Python's `str.replace` scans left to right; at each position a match of
the pattern is replaced and skipped, otherwise one character is kept.  The
fuel argument (instantiated with the list's length) only makes the
recursion structural. -/
def pyReplaceMp3WavAux : Nat → List Char → List Char
  | 0, l => l
  | _ + 1, [] => []
  | n + 1, c :: rest =>
    if mp3Ext.isPrefixOf (c :: rest) then wavExt ++ pyReplaceMp3WavAux n (rest.drop 3)
    else c :: pyReplaceMp3WavAux n rest

/-- Model of `filename.replace(".mp3", ".wav")`. -/
def pyReplaceMp3Wav (l : List Char) : List Char :=
  pyReplaceMp3WavAux l.length l

/-- The whitespace characters `str.strip()` removes (the ASCII ones, which
cover every text this development evaluates). -/
def pyIsSpace (c : Char) : Bool :=
  c = ' ' ∨ c = '\t' ∨ c = '\n' ∨ c = '\x0d' ∨ c = '\x0b' ∨ c = '\x0c'

/-- Python `s.strip()`: drop whitespace from both ends. -/
def pyStrip (l : List Char) : List Char :=
  ((l.dropWhile pyIsSpace).reverse.dropWhile pyIsSpace).reverse

/-- Model of `filename = request.filename or f"{job_id}.mp3"` followed by
`if not filename.endswith('.mp3'): filename += '.mp3'`. -/
def ttsNormalizeFilename (jobId : List Char) (orig : Option (List Char)) : List Char :=
  let f := if pyFalsy orig then jobId ++ mp3Ext else orig.getD []
  if pyEndsWith f mp3Ext then f else f ++ mp3Ext

/-- Which validation (or later stage) failed in `generate_speech`; every one
of them surfaces to the caller as a 500 via the blanket `except Exception`,
but the embedded error kind records which check fired. -/
inductive TTSError where
  | invalidVoice
  | textTooLong
  | textEmpty
  | engineFailure
  | persistFailure
deriving DecidableEq, Repr

/-- What one execution of `/generate-speech` did. -/
structure TTSResult where
  statusCode : Nat
  error : Option TTSError
  filename : List Char
  gttsAttempts : Nat
  pyttsx3Attempts : Nat
deriving DecidableEq, Repr

/-- Model of `generate_speech`: voice-type check, raw-length cap, strip-emptiness
check (in that order), filename normalization, the gTTS attempt, the
single pyttsx3 fallback on a gTTS exception together with the
`.mp3 → .wav` filename rewrite, then persistence.  `gttsOk`, `pyttsx3Ok`
and `persistOk` are the oracles for the three external effects.  Every
`HTTPException` raised inside the `try` is converted to a 500 by the
handler's `except Exception`. -/
def generate_speech (jobId : List Char) (text : List Char) (voiceType : List Char)
    (orig : Option (List Char)) (gttsOk pyttsx3Ok persistOk : Bool) : TTSResult :=
  if voiceType ≠ "male".data ∧ voiceType ≠ "female".data then
    { statusCode := 500, error := some .invalidVoice, filename := [],
      gttsAttempts := 0, pyttsx3Attempts := 0 }
  else if 5000 < text.length then
    { statusCode := 500, error := some .textTooLong, filename := [],
      gttsAttempts := 0, pyttsx3Attempts := 0 }
  else if pyStrip text = [] then
    { statusCode := 500, error := some .textEmpty, filename := [],
      gttsAttempts := 0, pyttsx3Attempts := 0 }
  else
    let filename := ttsNormalizeFilename jobId orig
    if gttsOk then
      if persistOk then
        { statusCode := 200, error := none, filename := filename,
          gttsAttempts := 1, pyttsx3Attempts := 0 }
      else
        { statusCode := 500, error := some .persistFailure, filename := filename,
          gttsAttempts := 1, pyttsx3Attempts := 0 }
    else
      let filename := pyReplaceMp3Wav filename
      if pyttsx3Ok then
        if persistOk then
          { statusCode := 200, error := none, filename := filename,
            gttsAttempts := 1, pyttsx3Attempts := 1 }
        else
          { statusCode := 500, error := some .persistFailure, filename := filename,
            gttsAttempts := 1, pyttsx3Attempts := 1 }
      else
        { statusCode := 500, error := some .engineFailure, filename := filename,
          gttsAttempts := 1, pyttsx3Attempts := 1 }

/-! ### Text-to-speech: `GET /download/{job_id}/{filename}` -/

/-- What the synthesizer's download endpoint returned: 404, or the file at
the resolved path with its media type. -/
structure DownloadResult where
  statusCode : Nat
  resolvedPath : List Char
  servedBytes : Option (List Nat)
  mediaType : List Char
deriving DecidableEq, Repr

/-- Model of `download_file`: resolve `os.path.join(TEMP_FILES_DIR, filename)` —
the `job_id` path parameter is never consulted — look the path up in the
temp directory, 404 when absent, otherwise serve the bytes with a media
type chosen by the `.mp3` suffix.  `fs` maps each present path to its
bytes. -/
def download_file (jobId filename : List Char)
    (fs : List Char → Option (List Nat)) : DownloadResult :=
  let path := osPathJoin tempFilesDir filename
  match fs path with
  | none =>
      { statusCode := 404, resolvedPath := path, servedBytes := none, mediaType := [] }
  | some bytes =>
      { statusCode := 200, resolvedPath := path, servedBytes := some bytes,
        mediaType := if pyEndsWith filename mp3Ext then "audio/mpeg".data
          else "audio/wav".data }

/-! ### Supporting lemmas -/

theorem mem_fsWrite {q p : List Char} {fs : List (List Char)}
    (h : q ∈ fsWrite p fs) : q ∈ fs ∨ q = p := by
  unfold fsWrite at h
  split at h
  · exact Or.inl h
  · rcases List.mem_append.mp h with h' | h'
    · exact Or.inl h'
    · exact Or.inr (List.mem_singleton.mp h')

theorem not_mem_fsRemove_self (p : List Char) (fs : List (List Char)) :
    p ∉ fsRemove p fs := by
  intro h
  have := (List.mem_filter.mp h).2
  simp at this

theorem not_mem_fsRemove_of_not_mem {q p : List Char} {fs : List (List Char)}
    (h : q ∉ fs) : q ∉ fsRemove p fs := by
  intro hmem
  exact h (List.mem_filter.mp hmem).1

/-! ### C9: the synthesizer's download endpoint ignores the job id -/

/-- Claim C9: The synthesizer's `download` endpoint resolves the request by a
direct filename match against the temp directory: the resolved path is
`os.path.join(TEMP_FILES_DIR, filename)`, and two requests with the same
filename but different `job_id` path parameters produce identical results
(same path, same status, same served bytes) on any filesystem state. -/
theorem C9_download_ignores_job_id (jobId₁ jobId₂ filename : List Char)
    (fs : List Char → Option (List Nat)) :
    download_file jobId₁ filename fs = download_file jobId₂ filename fs ∧
    (download_file jobId₁ filename fs).resolvedPath = osPathJoin tempFilesDir filename := by
  constructor
  · rfl
  · cases h : fs (osPathJoin tempFilesDir filename) <;> simp [download_file, h]

/-! ### C4: invalid voice type at the gateway text intake -/

/-- Claim C4: For every text submission whose `voice_type` is neither `male`
nor `female`, the gateway text-intake handler rejects the request (the
response is an error, not a 200) and never issues the downstream HTTP call
to the text-to-speech service. -/
theorem C4_bad_voice_no_downstream_call (voiceType : List Char)
    (orig : Option (List Char)) (randSrc : Nat → Fin 26) (downstream : HttpOutcome)
    (h : voiceType ≠ "male".data ∧ voiceType ≠ "female".data) :
    (text_to_audio voiceType orig randSrc downstream).downstreamCalled = false ∧
    (text_to_audio voiceType orig randSrc downstream).statusCode = 500 := by
  unfold text_to_audio
  rw [if_pos h]
  exact ⟨rfl, rfl⟩

/-- Witness for C4 at `voice_type = "robot"`. -/
theorem C4_bad_voice_no_downstream_call_witness :
    (text_to_audio "robot".data none (fun _ => 0) (.response 200)).downstreamCalled = false ∧
    (text_to_audio "robot".data none (fun _ => 0) (.response 200)).statusCode = 500 :=
  C4_bad_voice_no_downstream_call "robot".data none (fun _ => 0) (.response 200)
    (by constructor <;> decide)

/-! ### C1: client input errors do not surface as 4xx -/

/-- Claim C1: The claim says every client input error surfaces as a 4xx
status.  In all four handlers the 4xx `HTTPException` is raised inside the
handler's own `try` block and is therefore caught by the blanket
`except Exception`, which re-raises it as a 500.  Each conjunct evaluates
one of the claimed client-error cases — oversize upload at the gateway
media intake, bad voice type at the gateway text intake, oversize upload at
the processor, and bad voice type / overlong text / empty text at the
synthesizer — and finds a 500, refuting the claimed 4xx. -/
theorem C1_client_errors_surface_as_500 :
    (media_to_text "j".data (some "a.mp3".data) (sizeLimit + 1) (.response 200) []).statusCode = 500 ∧
    (text_to_audio "robot".data none (fun _ => 0) (.response 200)).statusCode = 500 ∧
    (process_media "j".data "a.mp3".data (sizeLimit + 1) true false true []).statusCode = 500 ∧
    (generate_speech "j".data "hi".data "robot".data none true true true).statusCode = 500 ∧
    (generate_speech "j".data (List.replicate 5001 'a') "male".data none true true true).statusCode = 500 ∧
    (generate_speech "j".data "   ".data "male".data none true true true).statusCode = 500 := by
  have hlt : sizeLimit < sizeLimit + 1 := by omega
  have h5 : 5000 < (List.replicate 5001 'a').length := by
    rw [List.length_replicate]
    omega
  refine ⟨?_, by decide, ?_, by decide, ?_, by decide⟩
  · unfold media_to_text
    rw [if_pos hlt]
  · unfold process_media
    rw [if_pos hlt]
  · unfold generate_speech
    rw [if_neg (by simp : ¬("male".data ≠ "male".data ∧ "male".data ≠ "female".data)),
      if_pos h5]

/-! ### C2: gateway temp-file cleanup is not unconditional -/

/-- Claim C2, counterexample: When the downstream POST to the media processor
raises (e.g. times out), the gateway's `os.remove` line is never reached:
the temp file written for the upload is still present when the handler
finishes.  Evaluated on a 5-byte upload with a raising downstream call. -/
theorem C2_counterexample_raise_leaves_temp_file :
    gatewayTempPath "j".data "a.mp3".data ∈
      (media_to_text "j".data (some "a.mp3".data) 5 (.raised "timeout".data) []).fsAfter := by
  decide

/-- Claim C2, amended: For every media upload accepted past the size check,
the temp file is deleted before the handler returns whenever the downstream
HTTP call returns a response — with any status, 200 or not; when the
downstream call raises, no cleanup runs and the file remains. -/
theorem C2_cleanup_only_when_downstream_responds (jobId : List Char)
    (orig : Option (List Char)) (fileSize : Nat) (code : Nat)
    (fs0 : List (List Char)) (h : fileSize ≤ sizeLimit) :
    gatewayTempPath jobId (gatewayMediaFilename jobId orig) ∉
      (media_to_text jobId orig fileSize (.response code) fs0).fsAfter := by
  have h' : ¬ sizeLimit < fileSize := by omega
  simp only [media_to_text, h', if_false]
  split <;> exact not_mem_fsRemove_self _ _

/-- Witness for the amended C2 on a concrete 5-byte upload whose downstream
call returns 502. -/
theorem C2_cleanup_only_when_downstream_responds_witness :
    gatewayTempPath "j".data (gatewayMediaFilename "j".data (some "a.mp3".data)) ∉
      (media_to_text "j".data (some "a.mp3".data) 5 (.response 502) []).fsAfter :=
  C2_cleanup_only_when_downstream_responds "j".data (some "a.mp3".data) 5 502 []
    (by decide)

/-! ### C8: the 150 MiB ceiling is strict on both upload paths -/

/-- Claim C8: For every upload strictly larger than 150 MiB both the gateway
media intake and the processor reject it — the gateway forwards nothing
downstream, the processor performs no transcode and no transcription — and
an upload of exactly 150 MiB passes the size check on both paths. -/
theorem C8_size_ceiling_strict (jobId filename : List Char)
    (orig : Option (List Char)) (fileSize : Nat) (downstream : HttpOutcome)
    (convertOk ffmpegWroteOutput transcribeOk : Bool)
    (fs0 fs1 : List (List Char)) (h : sizeLimit < fileSize) :
    (media_to_text jobId orig fileSize downstream fs0).sizeRejected = true ∧
    (media_to_text jobId orig fileSize downstream fs0).downstreamCalled = false ∧
    (media_to_text jobId orig fileSize downstream fs0).statusCode = 500 ∧
    (process_media jobId filename fileSize convertOk ffmpegWroteOutput transcribeOk fs1).sizeRejected = true ∧
    (process_media jobId filename fileSize convertOk ffmpegWroteOutput transcribeOk fs1).events = [] ∧
    (process_media jobId filename fileSize convertOk ffmpegWroteOutput transcribeOk fs1).statusCode = 500 ∧
    (media_to_text jobId orig sizeLimit downstream fs0).sizeRejected = false ∧
    (process_media jobId filename sizeLimit convertOk ffmpegWroteOutput transcribeOk fs1).sizeRejected = false := by
  have h' : ¬ sizeLimit < sizeLimit := by omega
  unfold media_to_text process_media
  rw [if_pos h, if_pos h, if_neg h', if_neg h']
  refine ⟨rfl, rfl, rfl, rfl, rfl, rfl, ?_, ?_⟩
  · cases downstream with
    | raised m => rfl
    | response c =>
        dsimp only
        split <;> rfl
  · dsimp only
    split
    · split
      · split <;> rfl
      · rfl
    · split <;> rfl

/-- Witness for C8 at 150 MiB + 1 byte (and the boundary conjuncts at
exactly 150 MiB). -/
theorem C8_size_ceiling_strict_witness :
    (media_to_text "j".data (some "a.mp3".data) (sizeLimit + 1) (.response 200) []).sizeRejected = true ∧
    (media_to_text "j".data (some "a.mp3".data) (sizeLimit + 1) (.response 200) []).downstreamCalled = false ∧
    (media_to_text "j".data (some "a.mp3".data) (sizeLimit + 1) (.response 200) []).statusCode = 500 ∧
    (process_media "j".data "clip.mp4".data (sizeLimit + 1) true false true []).sizeRejected = true ∧
    (process_media "j".data "clip.mp4".data (sizeLimit + 1) true false true []).events = [] ∧
    (process_media "j".data "clip.mp4".data (sizeLimit + 1) true false true []).statusCode = 500 ∧
    (media_to_text "j".data (some "a.mp3".data) sizeLimit (.response 200) []).sizeRejected = false ∧
    (process_media "j".data "clip.mp4".data sizeLimit true false true []).sizeRejected = false :=
  C8_size_ceiling_strict "j".data "clip.mp4".data (some "a.mp3".data) (sizeLimit + 1)
    (.response 200) true false true [] [] (by omega)

/-! ### C3: processor cleanup removes both temp files on every path -/

theorem not_mem_fsRemove_fsWrite_self {q p : List Char} {fs : List (List Char)}
    (h : q ∉ fs) : q ∉ fsRemove p (fsWrite p fs) := by
  intro hmem
  have h1 := List.mem_filter.mp hmem
  have h2 : q ≠ p := by simpa using h1.2
  rcases mem_fsWrite h1.1 with hf | hf
  · exact h hf
  · exact h2 hf

/-- Claim C3: For every `/process-media` request — size rejection, transcode
failure, transcription exception or success — once the handler finishes,
neither the saved original upload (`{job_id}_{filename}`) nor the
transcoded intermediate (`{job_id}_audio.mp3`) remains in the temp
directory, assuming a fresh job id (the two paths were not already present
before the request). -/
theorem C3_no_temp_files_survive (jobId filename : List Char) (fileSize : Nat)
    (convertOk ffmpegWroteOutput transcribeOk : Bool) (fs0 : List (List Char))
    (hin : procInputPath jobId filename ∉ fs0)
    (haud : procAudioPath jobId ∉ fs0) :
    procInputPath jobId filename ∉
      (process_media jobId filename fileSize convertOk ffmpegWroteOutput transcribeOk fs0).fsAfter ∧
    procAudioPath jobId ∉
      (process_media jobId filename fileSize convertOk ffmpegWroteOutput transcribeOk fs0).fsAfter := by
  have hboth : ∀ fs : List (List Char),
      procInputPath jobId filename ∉ procFinalize jobId filename true true fs ∧
      procAudioPath jobId ∉ procFinalize jobId filename true true fs := by
    intro fs
    exact ⟨not_mem_fsRemove_of_not_mem (not_mem_fsRemove_self _ _),
      not_mem_fsRemove_self _ _⟩
  unfold process_media
  split
  · exact ⟨hin, haud⟩
  · split
    · split
      · split
        · exact hboth _
        · exact hboth _
      · exact hboth _
    · split
      · exact ⟨not_mem_fsRemove_self _ _, not_mem_fsRemove_fsWrite_self haud⟩
      · exact ⟨not_mem_fsRemove_self _ _, not_mem_fsRemove_fsWrite_self haud⟩

/-- Witness for C3: a concrete failing video request (ffmpeg fails and
leaves a partial output) starting from an empty temp directory. -/
theorem C3_no_temp_files_survive_witness :
    procInputPath "j".data "clip.mp4".data ∉
      (process_media "j".data "clip.mp4".data 5 false true true []).fsAfter ∧
    procAudioPath "j".data ∉
      (process_media "j".data "clip.mp4".data 5 false true true []).fsAfter :=
  C3_no_temp_files_survive "j".data "clip.mp4".data 5 false true true []
    (by decide) (by decide)

/-! ### C5: transcoding happens exactly for video extensions -/

/-- Claim C5: For every filename submitted to the processor (under the size
cap), ffmpeg transcoding is invoked iff the filename's extension — the
part after the last dot of the lowercased name, as computed by
`fileExtension` — is one of the seven video extensions; when it is,
transcoding precedes transcription and transcription runs on the
transcoded audio; when it is not, transcription runs directly on the
original upload. -/
theorem C5_transcode_iff_video_extension (jobId filename : List Char) (fileSize : Nat)
    (convertOk ffmpegWroteOutput transcribeOk : Bool) (fs0 : List (List Char))
    (hsize : fileSize ≤ sizeLimit) :
    ((ProcEvent.transcodeCall ∈
        (process_media jobId filename fileSize convertOk ffmpegWroteOutput transcribeOk fs0).events) ↔
      fileExtension filename ∈ videoExtensions) ∧
    (fileExtension filename ∈ videoExtensions →
      (process_media jobId filename fileSize convertOk ffmpegWroteOutput transcribeOk fs0).events =
        if convertOk then [ProcEvent.transcodeCall, ProcEvent.transcribeCall .transcodedAudio]
        else [ProcEvent.transcodeCall]) ∧
    (fileExtension filename ∉ videoExtensions →
      (process_media jobId filename fileSize convertOk ffmpegWroteOutput transcribeOk fs0).events =
        [ProcEvent.transcribeCall .original]) := by
  have he : (process_media jobId filename fileSize convertOk ffmpegWroteOutput transcribeOk fs0).events
      = if fileExtension filename ∈ videoExtensions then
          (if convertOk then [ProcEvent.transcodeCall, ProcEvent.transcribeCall .transcodedAudio]
           else [ProcEvent.transcodeCall])
        else [ProcEvent.transcribeCall .original] := by
    unfold process_media
    rw [if_neg (by omega : ¬ sizeLimit < fileSize)]
    split
    · split
      · split <;> rfl
      · rfl
    · split <;> rfl
  refine ⟨?_, ?_, ?_⟩
  · rw [he]
    by_cases hv : fileExtension filename ∈ videoExtensions
    · rw [if_pos hv]
      constructor
      · intro _; exact hv
      · intro _
        by_cases hc : convertOk = true <;> simp [hc]
    · rw [if_neg hv]
      constructor
      · intro hmem
        simp at hmem
      · intro hvid
        exact absurd hvid hv
  · intro hv
    rw [he, if_pos hv]
  · intro hv
    rw [he, if_neg hv]

/-- Witness for C5 on a concrete video upload (`clip.mp4`, 5 bytes,
successful transcode). -/
theorem C5_transcode_iff_video_extension_witness :
    ((ProcEvent.transcodeCall ∈ (process_media "j".data "clip.mp4".data 5 true false true []).events) ↔
      fileExtension "clip.mp4".data ∈ videoExtensions) ∧
    (fileExtension "clip.mp4".data ∈ videoExtensions →
      (process_media "j".data "clip.mp4".data 5 true false true []).events =
        if true then [ProcEvent.transcodeCall, ProcEvent.transcribeCall .transcodedAudio]
        else [ProcEvent.transcodeCall]) ∧
    (fileExtension "clip.mp4".data ∉ videoExtensions →
      (process_media "j".data "clip.mp4".data 5 true false true []).events =
        [ProcEvent.transcribeCall .original]) :=
  C5_transcode_iff_video_extension "j".data "clip.mp4".data 5 true false true []
    (by decide)

/-! ### C7: gateway text-intake filename policy -/

theorem randomChoicesLowercase_length (randSrc : Nat → Fin 26) (k : Nat) :
    (randomChoicesLowercase randSrc k).length = k := by
  simp [randomChoicesLowercase]

theorem mem_asciiLowercase_bounds : ∀ c ∈ asciiLowercase, 'a' ≤ c ∧ c ≤ 'z' := by
  decide

theorem randomChoicesLowercase_bounds (randSrc : Nat → Fin 26) (k : Nat) :
    ∀ c ∈ randomChoicesLowercase randSrc k, 'a' ≤ c ∧ c ≤ 'z' := by
  intro c hc
  simp only [randomChoicesLowercase, List.mem_map] at hc
  obtain ⟨i, _, rfl⟩ := hc
  exact mem_asciiLowercase_bounds _ (List.get_mem _ _ _)

theorem pyEndsWith_append_mp3 (s : List Char) :
    pyEndsWith (s ++ mp3Ext) mp3Ext = true := by
  simp [pyEndsWith, List.suffix_append]

/-- Claim C7: At the gateway text intake (on a successful request): with no
filename supplied the response filename is exactly ten random lowercase
ASCII letters followed by `.mp3`; with a (nonempty) filename supplied the
response filename is the supplied name if it already ends in `.mp3` and
the supplied name with `.mp3` appended otherwise — in both cases it ends
in `.mp3`. -/
theorem C7_gateway_filename_policy (voiceType : List Char) (orig : Option (List Char))
    (randSrc : Nat → Fin 26)
    (hv : voiceType = "male".data ∨ voiceType = "female".data) :
    (text_to_audio voiceType orig randSrc (.response 200)).statusCode = 200 ∧
    (orig = none →
      (text_to_audio voiceType orig randSrc (.response 200)).filename =
          randomChoicesLowercase randSrc 10 ++ mp3Ext ∧
      (randomChoicesLowercase randSrc 10).length = 10 ∧
      (∀ c ∈ randomChoicesLowercase randSrc 10, 'a' ≤ c ∧ c ≤ 'z')) ∧
    (∀ s, orig = some s → s ≠ [] →
      ((text_to_audio voiceType orig randSrc (.response 200)).filename =
          if pyEndsWith s mp3Ext then s else s ++ mp3Ext) ∧
      pyEndsWith (text_to_audio voiceType orig randSrc (.response 200)).filename mp3Ext = true) := by
  have hne : ¬ (voiceType ≠ "male".data ∧ voiceType ≠ "female".data) := by
    rcases hv with h | h <;> simp [h]
  have hr : text_to_audio voiceType orig randSrc (.response 200) =
      { statusCode := 200, downstreamCalled := true,
        filename := gatewayTextFilename randSrc orig } := by
    unfold text_to_audio
    rw [if_neg hne]
    dsimp only
    rw [if_neg (by omega : ¬ (200 : Nat) ≠ 200)]
  rw [hr]
  refine ⟨rfl, ?_, ?_⟩
  · intro horig
    subst horig
    exact ⟨rfl, randomChoicesLowercase_length randSrc 10,
      randomChoicesLowercase_bounds randSrc 10⟩
  · intro s horig hs
    subst horig
    have hfalsy : pyFalsy (some s) = false := by
      cases s with
      | nil => exact absurd rfl hs
      | cons c t => rfl
    constructor
    · simp [gatewayTextFilename, hfalsy]
    · by_cases hend : pyEndsWith s mp3Ext = true
      · simp only [gatewayTextFilename, hfalsy, Bool.false_eq_true, if_false,
          Option.getD_some, hend, if_true]
      · have hend' : pyEndsWith s mp3Ext = false := by
          cases h : pyEndsWith s mp3Ext
          · rfl
          · exact absurd h hend
        simp only [gatewayTextFilename, hfalsy, Bool.false_eq_true, if_false,
          Option.getD_some, hend', if_false]
        exact pyEndsWith_append_mp3 s

/-- Witness for C7 with a caller-supplied `.wav` filename and a fixed
random source. -/
theorem C7_gateway_filename_policy_witness :
    (text_to_audio "male".data (some "song.wav".data) (fun _ => 0) (.response 200)).statusCode = 200 ∧
    ((text_to_audio "male".data (some "song.wav".data) (fun _ => 0) (.response 200)).filename =
        if pyEndsWith "song.wav".data mp3Ext then "song.wav".data
        else "song.wav".data ++ mp3Ext) ∧
    pyEndsWith (text_to_audio "male".data (some "song.wav".data) (fun _ => 0) (.response 200)).filename
      mp3Ext = true := by
  have h := C7_gateway_filename_policy "male".data (some "song.wav".data) (fun _ => 0)
    (Or.inl rfl)
  exact ⟨h.1, (h.2.2 "song.wav".data rfl (by decide)).1,
    (h.2.2 "song.wav".data rfl (by decide)).2⟩

/-! ### C10: order of text validations at the synthesizer -/

theorem pyStrip_eq_nil_of_all_space {l : List Char}
    (h : ∀ c ∈ l, pyIsSpace c = true) : pyStrip l = [] := by
  unfold pyStrip
  rw [List.dropWhile_eq_nil_iff.mpr h]
  rfl

/-- Claim C10: At `/generate-speech` (with a valid voice type), a text whose
characters are all whitespace strips to the empty string and is rejected by
the empty-text check whenever its raw length is within the 5000-character
cap; the cap is checked against the raw length first, so a 5001-character
whitespace-only text is rejected as overlong, not as empty. -/
theorem C10_whitespace_and_length_order (jobId text voiceType : List Char)
    (orig : Option (List Char)) (gttsOk pyttsx3Ok persistOk : Bool)
    (hv : voiceType = "male".data ∨ voiceType = "female".data)
    (hws : ∀ c ∈ text, pyIsSpace c = true) (hlen : text.length ≤ 5000) :
    pyStrip text = [] ∧
    (generate_speech jobId text voiceType orig gttsOk pyttsx3Ok persistOk).error =
      some .textEmpty ∧
    (∀ c ∈ List.replicate 5001 ' ', pyIsSpace c = true) ∧
    (generate_speech jobId (List.replicate 5001 ' ') voiceType orig gttsOk pyttsx3Ok persistOk).error =
      some .textTooLong := by
  have hne : ¬ (voiceType ≠ "male".data ∧ voiceType ≠ "female".data) := by
    rcases hv with h | h <;> simp [h]
  have hstrip : pyStrip text = [] := pyStrip_eq_nil_of_all_space hws
  refine ⟨hstrip, ?_, ?_, ?_⟩
  · unfold generate_speech
    rw [if_neg hne, if_neg (by omega : ¬ 5000 < text.length), if_pos hstrip]
  · intro c hc
    rw [List.eq_of_mem_replicate hc]
    rfl
  · unfold generate_speech
    rw [if_neg hne, if_pos (by rw [List.length_replicate]; omega :
      5000 < (List.replicate 5001 ' ').length)]

/-- Witness for C10 at a single-space text with voice `male`. -/
theorem C10_whitespace_and_length_order_witness :
    pyStrip " ".data = [] ∧
    (generate_speech "j".data " ".data "male".data none true true true).error =
      some .textEmpty ∧
    (∀ c ∈ List.replicate 5001 ' ', pyIsSpace c = true) ∧
    (generate_speech "j".data (List.replicate 5001 ' ') "male".data none true true true).error =
      some .textTooLong :=
  C10_whitespace_and_length_order "j".data " ".data "male".data none true true true
    (Or.inl rfl) (by decide) (by decide)

/-! ### C6: fallback synthesis and the `.wav` extension -/

theorem pyReplaceMp3WavAux_nil (n : Nat) : pyReplaceMp3WavAux n [] = [] := by
  cases n <;> rfl

/-- Core property of `filename.replace(".mp3", ".wav")`: on any input
ending in `.mp3` the output ends in `.wav`.  The pattern `.mp3` cannot
overlap itself, so the left-to-right scan always consumes the final
occurrence whole. -/
theorem pyReplaceMp3WavAux_suffix :
    ∀ (n : Nat) (t : List Char), (t ++ mp3Ext).length ≤ n →
    ∃ u, pyReplaceMp3WavAux n (t ++ mp3Ext) = u ++ wavExt := by
  intro n
  induction n with
  | zero =>
      intro t h
      exfalso
      simp [mp3Ext] at h
  | succ n ih =>
      intro t h
      cases t with
      | nil =>
          refine ⟨[], ?_⟩
          have hpre : mp3Ext.isPrefixOf ('.' :: 'm' :: 'p' :: '3' :: ([] : List Char)) = true := by
            decide
          show pyReplaceMp3WavAux (n + 1) ('.' :: 'm' :: 'p' :: '3' :: []) = [] ++ wavExt
          simp only [pyReplaceMp3WavAux, hpre, if_true, List.drop, pyReplaceMp3WavAux_nil,
            List.append_nil, List.nil_append]
      | cons c t' =>
          by_cases hp : mp3Ext.isPrefixOf (c :: (t' ++ mp3Ext)) = true
          · have hpre : mp3Ext <+: c :: (t' ++ mp3Ext) := by
              rw [← List.isPrefixOf_iff_prefix]
              exact hp
            obtain ⟨s, hs⟩ := hpre
            rcases t' with _ | ⟨a, _ | ⟨b, _ | ⟨d, t₃⟩⟩⟩
            · exfalso
              simp [mp3Ext] at hs
            · exfalso
              simp [mp3Ext] at hs
            · exfalso
              simp [mp3Ext] at hs
            · obtain ⟨u, hu⟩ := ih t₃ (by
                simp only [List.length_append, List.length_cons, mp3Ext] at h ⊢
                simp at h ⊢
                omega)
              refine ⟨wavExt ++ u, ?_⟩
              show pyReplaceMp3WavAux (n + 1) (c :: (a :: b :: d :: t₃ ++ mp3Ext)) = _
              simp only [pyReplaceMp3WavAux, hp, if_true, List.drop, List.append_eq]
              rw [hu, List.append_assoc]
          · obtain ⟨u, hu⟩ := ih t' (by
              simp only [List.length_append, List.length_cons, mp3Ext] at h ⊢
              simp at h ⊢
              omega)
            refine ⟨c :: u, ?_⟩
            show pyReplaceMp3WavAux (n + 1) (c :: (t' ++ mp3Ext)) = _
            simp only [pyReplaceMp3WavAux, hp, if_false, Bool.false_eq_true]
            rw [hu]
            rfl

theorem pyReplaceMp3Wav_suffix (t : List Char) :
    ∃ u, pyReplaceMp3Wav (t ++ mp3Ext) = u ++ wavExt :=
  pyReplaceMp3WavAux_suffix (t ++ mp3Ext).length t le_rfl

theorem exists_append_mp3 (f : List Char) :
    ∃ t, (if pyEndsWith f mp3Ext then f else f ++ mp3Ext) = t ++ mp3Ext := by
  by_cases hend : pyEndsWith f mp3Ext = true
  · rw [if_pos hend]
    have hsuf : mp3Ext <:+ f := by
      rw [← List.isSuffixOf_iff_suffix]
      exact hend
    obtain ⟨t, ht⟩ := hsuf
    exact ⟨t, ht.symm⟩
  · rw [if_neg hend]
    exact ⟨f, rfl⟩

theorem ttsNormalizeFilename_ends_mp3 (jobId : List Char) (orig : Option (List Char)) :
    ∃ t, ttsNormalizeFilename jobId orig = t ++ mp3Ext := by
  unfold ttsNormalizeFilename
  exact exists_append_mp3 _

theorem fallback_filename_ends_wav (jobId : List Char) (orig : Option (List Char)) :
    ∃ u, pyReplaceMp3Wav (ttsNormalizeFilename jobId orig) = u ++ wavExt := by
  obtain ⟨t, ht⟩ := ttsNormalizeFilename_ends_mp3 jobId orig
  rw [ht]
  exact pyReplaceMp3Wav_suffix t

theorem ends_wav_not_ends_mp3 {l : List Char} (h : ∃ u, l = u ++ wavExt) :
    ¬ ∃ u, l = u ++ mp3Ext := by
  obtain ⟨u, hu⟩ := h
  rintro ⟨v, hv⟩
  have h1 : l.getLast? = some 'v' := by
    rw [hu]
    simp [wavExt, List.getLast?_append]
  have h2 : l.getLast? = some '3' := by
    rw [hv]
    simp [mp3Ext, List.getLast?_append]
  rw [h1] at h2
  exact absurd (Option.some.inj h2) (by decide)

/-- Claim C6: For every validated synthesis request whose gTTS (primary)
call raises: the pyttsx3 (offline) fallback is attempted exactly once
(also before reporting failure when it too raises), and on a successful
fallback response the filename ends in `.wav` and no longer ends in
`.mp3` — for every caller-supplied filename, including ones with `.mp3`
as an interior substring. -/
theorem C6_fallback_once_and_wav_filename (jobId text voiceType : List Char)
    (orig : Option (List Char)) (pyttsx3Ok persistOk : Bool)
    (hv : voiceType = "male".data ∨ voiceType = "female".data)
    (hlen : text.length ≤ 5000) (hne : pyStrip text ≠ []) :
    (generate_speech jobId text voiceType orig false pyttsx3Ok persistOk).gttsAttempts = 1 ∧
    (generate_speech jobId text voiceType orig false pyttsx3Ok persistOk).pyttsx3Attempts = 1 ∧
    (pyttsx3Ok = false →
      (generate_speech jobId text voiceType orig false pyttsx3Ok persistOk).statusCode = 500) ∧
    (pyttsx3Ok = true → persistOk = true →
      (generate_speech jobId text voiceType orig false pyttsx3Ok persistOk).statusCode = 200 ∧
      (∃ u, (generate_speech jobId text voiceType orig false pyttsx3Ok persistOk).filename =
        u ++ wavExt) ∧
      ¬ ∃ u, (generate_speech jobId text voiceType orig false pyttsx3Ok persistOk).filename =
        u ++ mp3Ext) := by
  have hnv : ¬ (voiceType ≠ "male".data ∧ voiceType ≠ "female".data) := by
    rcases hv with h | h <;> simp [h]
  have hg : generate_speech jobId text voiceType orig false pyttsx3Ok persistOk =
      (if pyttsx3Ok then
        (if persistOk then
          { statusCode := 200, error := none,
            filename := pyReplaceMp3Wav (ttsNormalizeFilename jobId orig),
            gttsAttempts := 1, pyttsx3Attempts := 1 }
         else
          { statusCode := 500, error := some .persistFailure,
            filename := pyReplaceMp3Wav (ttsNormalizeFilename jobId orig),
            gttsAttempts := 1, pyttsx3Attempts := 1 })
       else
        { statusCode := 500, error := some .engineFailure,
          filename := pyReplaceMp3Wav (ttsNormalizeFilename jobId orig),
          gttsAttempts := 1, pyttsx3Attempts := 1 }) := by
    unfold generate_speech
    rw [if_neg hnv, if_neg (by omega : ¬ 5000 < text.length), if_neg hne]
    rfl
  rw [hg]
  cases pyttsx3Ok with
  | false =>
      cases persistOk <;>
        exact ⟨rfl, rfl, fun _ => rfl, fun h1 _ => absurd h1 (by decide)⟩
  | true =>
      cases persistOk with
      | false =>
          exact ⟨rfl, rfl, fun h => absurd h (by decide),
            fun _ h2 => absurd h2 (by decide)⟩
      | true =>
          exact ⟨rfl, rfl, fun h => absurd h (by decide),
            fun _ _ => ⟨rfl, fallback_filename_ends_wav jobId orig,
              ends_wav_not_ends_mp3 (fallback_filename_ends_wav jobId orig)⟩⟩

/-- Witness for C6: a request whose supplied filename contains `.mp3` as an
interior substring (`x.mp3.backup`, normalized to `x.mp3.backup.mp3`),
with the primary engine failing and the fallback succeeding. -/
theorem C6_fallback_once_and_wav_filename_witness :
    (generate_speech "j".data "hi".data "male".data (some "x.mp3.backup".data) false true true).gttsAttempts = 1 ∧
    (generate_speech "j".data "hi".data "male".data (some "x.mp3.backup".data) false true true).pyttsx3Attempts = 1 ∧
    (generate_speech "j".data "hi".data "male".data (some "x.mp3.backup".data) false true true).statusCode = 200 ∧
    (∃ u, (generate_speech "j".data "hi".data "male".data (some "x.mp3.backup".data) false true true).filename =
      u ++ wavExt) := by
  have h := C6_fallback_once_and_wav_filename "j".data "hi".data "male".data
    (some "x.mp3.backup".data) true true (Or.inl rfl) (by decide) (by decide)
  exact ⟨h.1, h.2.1, (h.2.2.2 rfl rfl).1, (h.2.2.2 rfl rfl).2.1⟩

end MusicPipeline
